import Mathlib

/-!
Verification development for the reminder tracker (streamlit_app.py).

Shallow embedding conventions:
  - Timestamps are modelled as natural numbers counting whole seconds since
    an epoch (the claims under study only exercise whole-second arithmetic;
    the sub-second resolution of Python datetime plays no role in them).
  - A duration (Python timedelta) is an integer number of seconds, so that
    negative (overdue) deltas are representable.
  - Each UI handler invocation happens at a single instant, passed in as an
    explicit argument in place of the datetime.datetime.now() calls.
  - The status strings are modelled by a four-valued enumeration, since the
    program only ever stores one of the four literals.
  - Fallible or partial behaviour is made explicit; nothing is stubbed.
-/

namespace ReminderApp

/-- Status of a reminder; the program uses exactly four string literals. -/
inductive Status where
  | pending
  | due
  | dismissed
  | completed
deriving DecidableEq, Repr

/-- Mirrors the constant STATUS_PENDING = "pending". -/
def STATUS_PENDING : Status := Status.pending

/-- Mirrors the constant STATUS_DUE = "due". -/
def STATUS_DUE : Status := Status.due

/-- Mirrors the constant STATUS_DISMISSED = "dismissed". -/
def STATUS_DISMISSED : Status := Status.dismissed

/-- Mirrors the constant STATUS_COMPLETED = "completed". -/
def STATUS_COMPLETED : Status := Status.completed

/-- The reminder record, as built by the add handler: keys id, task,
due_time, created_at, status, completed_at. -/
structure Reminder where
  id : String
  task : String
  due_time : Nat
  created_at : Nat
  status : Status
  completed_at : Option Nat
deriving DecidableEq, Repr

/-- Embedding of calculate_due_time(value, unit). The Python reads the clock
itself; here the instant is the explicit argument now. On an unrecognized
unit the Python calls st.error and then returns now, so the function total:
it falls through to now. -/
def calculate_due_time (now : Nat) (value : Nat) (unit : String) : Nat :=
  if unit = "seconds" then now + value
  else if unit = "minutes" then now + value * 60
  else if unit = "hours" then now + value * 3600
  else if unit = "days" then now + value * 86400
  else now

/-- Embedding of format_timedelta_dhms(delta); delta is the duration in
seconds (an integer, negative when overdue). The sequential list building
with conditional appends mirrors the Python parts list line by line. -/
def format_timedelta_dhms (delta : Int) : String :=
  if delta ≤ 0 then
    let abs_seconds : Nat := delta.natAbs
    let days : Nat := abs_seconds / 86400
    let rem : Nat := abs_seconds % 86400
    let hours : Nat := rem / 3600
    let rem2 : Nat := rem % 3600
    let minutes : Nat := rem2 / 60
    let secs : Nat := rem2 % 60
    let parts : List String := if days > 0 then [toString days ++ "d"] else []
    let parts := if hours > 0 then parts ++ [toString hours ++ "h"] else parts
    let parts := if minutes > 0 then parts ++ [toString minutes ++ "m"] else parts
    let parts := if secs > 0 ∨ parts = [] then parts ++ [toString secs ++ "s"] else parts
    if abs_seconds > 0 then
      "Overdue by " ++ (if parts = [] then "0s" else String.intercalate " " parts) ++ "!"
    else
      "Due NOW!"
  else
    let seconds : Nat := delta.toNat
    let days : Nat := seconds / 86400
    let rem : Nat := seconds % 86400
    let hours : Nat := rem / 3600
    let rem2 : Nat := rem % 3600
    let minutes : Nat := rem2 / 60
    let secs : Nat := rem2 % 60
    let parts : List String := if days > 0 then [toString days ++ "d"] else []
    let parts := if hours > 0 then parts ++ [toString hours ++ "h"] else parts
    let parts := if minutes > 0 then parts ++ [toString minutes ++ "m"] else parts
    let parts := if parts = [] ∨ (days = 0 ∧ hours = 0 ∧ minutes = 0)
      then parts ++ [toString secs ++ "s"] else parts
    String.intercalate " " parts

example : format_timedelta_dhms 3661 = "1h 1m" := by rfl
example : format_timedelta_dhms 90 = "1m" := by rfl
example : format_timedelta_dhms 0 = "Due NOW!" := by rfl
example : format_timedelta_dhms (-5) = "Overdue by 5s!" := by rfl
example : format_timedelta_dhms 30 = "30s" := by rfl

/-- Character for a single decimal digit, as in the textual timestamp form. -/
def digitChar (d : Nat) : Char := Char.ofNat (48 + d)

/-- Numeric value of a decimal digit character. -/
def charVal (c : Char) : Nat := c.toNat - 48

/-- Modelled stand-in for datetime.isoformat(): renders the timestamp (whole
seconds in this model) as its decimal numeral. The Python library guarantees
that fromisoformat inverts isoformat exactly; the model keeps the same
contract with a decimal rendering in place of the ISO-8601 layout. -/
def isoformat (t : Nat) : String :=
  String.mk (((Nat.digits 10 t).map digitChar).reverse)

/-- Modelled stand-in for datetime.fromisoformat(): parses the decimal
numeral written by isoformat back to the timestamp. -/
def fromisoformat (s : String) : Nat :=
  Nat.ofDigits 10 ((s.data.map charVal).reverse)

/-- Status literal stored in the JSON file for each status value. -/
def statusStr : Status → String
  | Status.pending => "pending"
  | Status.due => "due"
  | Status.dismissed => "dismissed"
  | Status.completed => "completed"

/-- Reading a status literal back from the file. The Python keeps the string
field untouched; the typed model converts it back to the enumeration (files
written by save only ever hold the four literals). -/
def statusOfStr (s : String) : Status :=
  if s = "pending" then Status.pending
  else if s = "due" then Status.due
  else if s = "dismissed" then Status.dismissed
  else Status.completed

/-- One JSON object of the persisted array: the serializable copy sr built
by save_reminders_to_file, with timestamps as strings and completed_at
still None (null) when it was absent. -/
structure ReminderJson where
  id : String
  task : String
  due_time : String
  created_at : String
  status : String
  completed_at : Option String
deriving DecidableEq, Repr

/-- Serialization of one reminder inside save_reminders_to_file: due_time
and created_at via isoformat, completed_at via isoformat only when present
(the Python truthiness test keeps None as None). -/
def serialize_reminder (r : Reminder) : ReminderJson :=
  { id := r.id
    task := r.task
    due_time := isoformat r.due_time
    created_at := isoformat r.created_at
    status := statusStr r.status
    completed_at := r.completed_at.map isoformat }

/-- Embedding of save_reminders_to_file: the JSON array written to disk.
The file write itself (open/json.dump and the IOError branch) is I/O at the
boundary; the persisted content is what the claims are about. -/
def save_reminders_to_file (reminders_list : List Reminder) : List ReminderJson :=
  reminders_list.map serialize_reminder

/-- Deserialization of one loaded JSON object inside load_reminders_from_file:
fromisoformat on the two timestamps, and on completed_at only when it is a
string (null stays None). -/
def deserialize_reminder (j : ReminderJson) : Reminder :=
  { id := j.id
    task := j.task
    due_time := fromisoformat j.due_time
    created_at := fromisoformat j.created_at
    status := statusOfStr j.status
    completed_at := j.completed_at.map fromisoformat }

/-- Embedding of load_reminders_from_file on an existing readable file with
the given JSON array content (the missing-file and corrupt-file branches
return the empty list at the I/O boundary). -/
def load_reminders_from_file (file : List ReminderJson) : List Reminder :=
  file.map deserialize_reminder

/-- Embedding of the add handler (form submit, lines 119-131): builds the new
reminder and appends it. The opaque uuid4 identifier is the argument rid;
both datetime.now() calls of the handler happen at the instant now. The
caller guards that the task text is nonempty; the append happens for any
unit string, since calculate_due_time falls back to now. -/
def add (now : Nat) (rid task : String) (value : Nat) (unit : String)
    (reminders : List Reminder) : List Reminder :=
  reminders ++ [{ id := rid
                  task := task
                  due_time := calculate_due_time now value unit
                  created_at := now
                  status := STATUS_PENDING
                  completed_at := none }]

/-- Embedding of the mark-as-completed checkbox handler (lines 196-201). The
checkbox only exists for reminders rendered in the active list, whose status
is pending or due; the handler then sets status and completed_at together. -/
def complete (now : Nat) (tid : String) (reminders : List Reminder) : List Reminder :=
  reminders.map fun r =>
    if r.id = tid ∧ (r.status = STATUS_PENDING ∨ r.status = STATUS_DUE)
    then { r with status := STATUS_COMPLETED, completed_at := some now }
    else r

/-- Embedding of the uncomplete checkbox handler (lines 238-243). The
checkbox only exists for reminders rendered in the completed list, whose
status is completed; the handler resets status to pending and clears
completed_at. -/
def uncomplete (tid : String) (reminders : List Reminder) : List Reminder :=
  reminders.map fun r =>
    if r.id = tid ∧ r.status = STATUS_COMPLETED
    then { r with status := STATUS_PENDING, completed_at := none }
    else r

/-- Embedding of the two dismiss button handlers (lines 210-214 for the
active list, 252-256 for the completed list). A button exists only for a
rendered reminder, whose status is pending, due or completed; the handler
sets status to dismissed and touches no other field. -/
def dismiss (tid : String) (reminders : List Reminder) : List Reminder :=
  reminders.map fun r =>
    if r.id = tid ∧ r.status ≠ STATUS_DISMISSED
    then { r with status := STATUS_DISMISSED }
    else r

/-- Ascending order on due_time, the sort key of the active list. -/
def dueLE (a b : Reminder) : Prop := a.due_time ≤ b.due_time

instance : DecidableRel dueLE := fun a b => Nat.decLe a.due_time b.due_time

/-- Sort key of the completed list: completed_at, falling back to created_at
when absent, exactly the expression r.get with the or fallback on line 156. -/
def completedKey (r : Reminder) : Nat := r.completed_at.getD r.created_at

/-- Descending order on completedKey, as produced by sorted(reverse=True). -/
def completedGE (a b : Reminder) : Prop := completedKey b ≤ completedKey a

instance : DecidableRel completedGE :=
  fun a b => Nat.decLe (completedKey b) (completedKey a)

/-- The pending-to-due transition applied to one reminder during the render
pass (lines 167-168): a pending reminder whose due_time has been reached
flips to due; every other reminder is untouched. -/
def updDue (now : Nat) (r : Reminder) : Reminder :=
  if r.due_time ≤ now ∧ r.status = STATUS_PENDING
  then { r with status := STATUS_DUE }
  else r

/-- Result of one evaluate pass: the two displayed lists, the reminders that
crossed into due this pass, the toast payloads collected from them, and the
collection after the pass. -/
structure EvalResult where
  active : List Reminder
  completed : List Reminder
  became_due : List Reminder
  due_notifications : List String
  state : List Reminder
deriving DecidableEq, Repr

/-- Embedding of one render pass over the collection (lines 139-171): skip
dismissed reminders, split the rest into active (pending or due) and
completed, sort the active list ascending by due_time and the completed list
descending by completedKey (Python sorted is a stable sort, as is
insertionSort, so the two agree element for element), then flip every
overdue pending reminder to due, collecting its task for the toast. The
displayed active list carries the flips; the completed list is untouched by
the pass; state is the whole collection after the in-place flips. -/
def evaluate (now : Nat) (reminders : List Reminder) : EvalResult :=
  let pending_due_reminders := reminders.filter
    (fun r => r.status ≠ STATUS_DISMISSED ∧ r.status ≠ STATUS_COMPLETED)
  let completed_reminders_list := reminders.filter
    (fun r => r.status ≠ STATUS_DISMISSED ∧ r.status = STATUS_COMPLETED)
  let sorted_active := List.insertionSort dueLE pending_due_reminders
  let sorted_completed := List.insertionSort completedGE completed_reminders_list
  let became := sorted_active.filter
    (fun r => r.due_time ≤ now ∧ r.status = STATUS_PENDING)
  { active := sorted_active.map (updDue now)
    completed := sorted_completed
    became_due := became.map (updDue now)
    due_notifications := became.map (fun r => r.task)
    state := reminders.map (updDue now) }

/-- One command at the interface the presentation layer drives. -/
inductive Op where
  | addOp (now : Nat) (rid task : String) (value : Nat) (unit : String)
  | completeOp (now : Nat) (tid : String)
  | uncompleteOp (tid : String)
  | dismissOp (tid : String)
  | evaluateOp (now : Nat)

/-- Effect of one command on the collection. -/
def applyOp : Op → List Reminder → List Reminder
  | Op.addOp now rid task value unit, rs => add now rid task value unit rs
  | Op.completeOp now tid, rs => complete now tid rs
  | Op.uncompleteOp tid, rs => uncomplete tid rs
  | Op.dismissOp tid, rs => dismiss tid rs
  | Op.evaluateOp now, rs => (evaluate now rs).state

/-- Running a sequence of commands left to right. -/
def run (ops : List Op) (rs : List Reminder) : List Reminder :=
  ops.foldl (fun s op => applyOp op s) rs

/-- The became_due lists of a sequence of evaluate passes at the given
times, each pass starting from the state the previous one left. -/
def evalChain (times : List Nat) (rs : List Reminder) : List (List Reminder) :=
  match times with
  | [] => []
  | t :: ts => (evaluate t rs).became_due :: evalChain ts (evaluate t rs).state

/-! Helper lemmas about the embedded operations. -/

theorem STATUS_PENDING_def : STATUS_PENDING = Status.pending := rfl

theorem STATUS_DUE_def : STATUS_DUE = Status.due := rfl

theorem STATUS_DISMISSED_def : STATUS_DISMISSED = Status.dismissed := rfl

theorem STATUS_COMPLETED_def : STATUS_COMPLETED = Status.completed := rfl

theorem updDue_id (now : Nat) (r : Reminder) : (updDue now r).id = r.id := by
  unfold updDue; split <;> rfl

theorem updDue_task (now : Nat) (r : Reminder) : (updDue now r).task = r.task := by
  unfold updDue; split <;> rfl

theorem updDue_due_time (now : Nat) (r : Reminder) :
    (updDue now r).due_time = r.due_time := by
  unfold updDue; split <;> rfl

theorem updDue_created_at (now : Nat) (r : Reminder) :
    (updDue now r).created_at = r.created_at := by
  unfold updDue; split <;> rfl

theorem updDue_completed_at (now : Nat) (r : Reminder) :
    (updDue now r).completed_at = r.completed_at := by
  unfold updDue; split <;> rfl

theorem updDue_idem (now : Nat) (r : Reminder) :
    updDue now (updDue now r) = updDue now r := by
  unfold updDue
  split
  · rw [if_neg]
    simp [STATUS_PENDING_def, STATUS_DUE_def]
  · rfl

/-! Claim C1. -/

/-- C1: for a strictly positive delta the claim expects the seconds
component always to be included, giving "1h 1m 1s" on 3661 seconds and
"1m 30s" on 90 seconds. The positive branch of format_timedelta_dhms only
appends the seconds part when days, hours and minutes are all zero, so the
program prints "1h 1m" and "1m" on those inputs, contradicting both the
stated examples and the docstring example layout "2d 3h 5m 10s" (which the
positive branch can never produce). This theorem evaluates the code at the
failing inputs and records the zero and negative cases for contrast. -/
theorem C1_format_positive_delta_drops_seconds :
    format_timedelta_dhms 3661 = "1h 1m" ∧
    format_timedelta_dhms 90 = "1m" ∧
    format_timedelta_dhms 3661 ≠ "1h 1m 1s" ∧
    format_timedelta_dhms 90 ≠ "1m 30s" ∧
    format_timedelta_dhms 0 = "Due NOW!" ∧
    format_timedelta_dhms (-5) = "Overdue by 5s!" := by
  refine ⟨rfl, rfl, by decide, by decide, rfl, rfl⟩

/-! Claim C2. -/

/-- C2 counterexample: on the unrecognized unit "weeks" the claim says the
add operation fails and the collection is unchanged; in the program
calculate_due_time reports an error with st.error and then returns now, and
the submit handler still appends a reminder, here with due_time equal to
created_at. The collection grows from empty to one element, refuting the
claim at this concrete input. -/
theorem C2_counterexample :
    add 100 "id0" "water plants" 5 "weeks" [] =
      [{ id := "id0", task := "water plants", due_time := 100,
         created_at := 100, status := STATUS_PENDING, completed_at := none }] ∧
    add 100 "id0" "water plants" 5 "weeks" [] ≠ [] := by
  exact ⟨rfl, by decide⟩

/-- C2 amended: for every input whose unit is not one of the four
recognized values, calculate_due_time falls back to returning now, and the
add operation still creates exactly one new Reminder, appended to the
collection, whose due_time and created_at are both now; the pre-existing
reminders are untouched. (Invalid units are unreachable from the UI, whose
select box offers only the four values.) -/
theorem C2_invalid_unit_still_adds (now : Nat) (rid task : String) (value : Nat)
    (unit : String) (rs : List Reminder)
    (h1 : unit ≠ "seconds") (h2 : unit ≠ "minutes")
    (h3 : unit ≠ "hours") (h4 : unit ≠ "days") :
    add now rid task value unit rs =
      rs ++ [{ id := rid, task := task, due_time := now,
               created_at := now, status := STATUS_PENDING, completed_at := none }] := by
  unfold add calculate_due_time
  rw [if_neg h1, if_neg h2, if_neg h3, if_neg h4]

/-- C2 witness: the amended theorem applied at a concrete invalid unit. -/
theorem C2_invalid_unit_still_adds_witness :
    add 7 "idW" "taskW" 3 "fortnights" [] =
      [{ id := "idW", task := "taskW", due_time := 7,
         created_at := 7, status := STATUS_PENDING, completed_at := none }] :=
  C2_invalid_unit_still_adds 7 "idW" "taskW" 3 "fortnights" []
    (by decide) (by decide) (by decide) (by decide)

/-! Claim C6. -/

theorem charVal_digitChar {d : Nat} (hd : d < 10) : charVal (digitChar d) = d := by
  interval_cases d <;> decide

theorem fromisoformat_isoformat (t : Nat) : fromisoformat (isoformat t) = t := by
  unfold fromisoformat isoformat
  have h1 : (String.mk (((Nat.digits 10 t).map digitChar).reverse)).data
      = ((Nat.digits 10 t).map digitChar).reverse := rfl
  rw [h1, List.map_reverse, List.reverse_reverse, List.map_map]
  have h2 : ∀ d ∈ Nat.digits 10 t, (charVal ∘ digitChar) d = d := fun d hd =>
    charVal_digitChar (Nat.digits_lt_base (by norm_num) hd)
  rw [List.map_congr_left h2, List.map_id']
  exact Nat.ofDigits_digits 10 t

theorem statusOfStr_statusStr (s : Status) : statusOfStr (statusStr s) = s := by
  cases s <;> rfl

theorem deserialize_serialize (r : Reminder) :
    deserialize_reminder (serialize_reminder r) = r := by
  cases r with
  | mk id task due created status completed =>
    cases completed <;>
      simp [deserialize_reminder, serialize_reminder, fromisoformat_isoformat,
        statusOfStr_statusStr]

/-- C6: deserializing the serialized form of any reminder restores it field
for field, including an absent completed_at, and loading back a saved
non-empty collection restores the collection element for element. -/
theorem C6_serialization_roundtrip (r : Reminder) (X : List Reminder) (_hX : X ≠ []) :
    deserialize_reminder (serialize_reminder r) = r ∧
    load_reminders_from_file (save_reminders_to_file X) = X := by
  refine ⟨deserialize_serialize r, ?_⟩
  unfold load_reminders_from_file save_reminders_to_file
  rw [List.map_map]
  have h : ∀ a ∈ X, (deserialize_reminder ∘ serialize_reminder) a = a :=
    fun a _ => deserialize_serialize a
  rw [List.map_congr_left h, List.map_id']

/-- C6 witness: the roundtrip theorem applied to a concrete reminder with
completed_at absent and to the concrete singleton collection holding it. -/
theorem C6_serialization_roundtrip_witness :
    deserialize_reminder (serialize_reminder
      { id := "w6", task := "tw", due_time := 12345, created_at := 11,
        status := STATUS_DUE, completed_at := none }) =
      { id := "w6", task := "tw", due_time := 12345, created_at := 11,
        status := STATUS_DUE, completed_at := none } ∧
    load_reminders_from_file (save_reminders_to_file
      [{ id := "w6", task := "tw", due_time := 12345, created_at := 11,
         status := STATUS_DUE, completed_at := none }]) =
      [{ id := "w6", task := "tw", due_time := 12345, created_at := 11,
         status := STATUS_DUE, completed_at := none }] :=
  C6_serialization_roundtrip
    { id := "w6", task := "tw", due_time := 12345, created_at := 11,
      status := STATUS_DUE, completed_at := none }
    [{ id := "w6", task := "tw", due_time := 12345, created_at := 11,
       status := STATUS_DUE, completed_at := none }]
    (by decide)

/-! Claim C3. -/

/-- The completed_at consistency invariant that actually holds of the
program: a completed reminder carries a completion time, a pending or due
reminder carries none. (Nothing is said about dismissed reminders, which
may retain the completion time they had when dismissed.) -/
def completedAtConsistent (r : Reminder) : Prop :=
  (r.status = STATUS_COMPLETED → r.completed_at ≠ none) ∧
  ((r.status = STATUS_PENDING ∨ r.status = STATUS_DUE) → r.completed_at = none)

instance (r : Reminder) : Decidable (completedAtConsistent r) := by
  unfold completedAtConsistent; infer_instance

theorem run_cons (op : Op) (ops : List Op) (rs : List Reminder) :
    run (op :: ops) rs = run ops (applyOp op rs) := rfl

theorem evaluate_state (now : Nat) (rs : List Reminder) :
    (evaluate now rs).state = rs.map (updDue now) := rfl

theorem completedAtConsistent_applyOp (op : Op) (rs : List Reminder)
    (h : ∀ r ∈ rs, completedAtConsistent r) :
    ∀ r ∈ applyOp op rs, completedAtConsistent r := by
  cases op with
  | addOp now rid task value unit =>
    intro r hr
    simp only [applyOp, add, List.mem_append, List.mem_singleton] at hr
    rcases hr with hr | hr
    · exact h r hr
    · subst hr
      exact ⟨fun hc => by simp [STATUS_PENDING_def, STATUS_COMPLETED_def] at hc,
        fun _ => rfl⟩
  | completeOp now tid =>
    intro r hr
    simp only [applyOp, complete, List.mem_map] at hr
    obtain ⟨y, hy, rfl⟩ := hr
    by_cases hc : y.id = tid ∧ (y.status = STATUS_PENDING ∨ y.status = STATUS_DUE)
    · rw [if_pos hc]
      refine ⟨fun _ => by simp, fun hpd => ?_⟩
      simp [STATUS_COMPLETED_def, STATUS_PENDING_def, STATUS_DUE_def] at hpd
    · rw [if_neg hc]; exact h y hy
  | uncompleteOp tid =>
    intro r hr
    simp only [applyOp, uncomplete, List.mem_map] at hr
    obtain ⟨y, hy, rfl⟩ := hr
    by_cases hc : y.id = tid ∧ y.status = STATUS_COMPLETED
    · rw [if_pos hc]
      refine ⟨fun hp => ?_, fun _ => rfl⟩
      simp [STATUS_COMPLETED_def, STATUS_PENDING_def] at hp
    · rw [if_neg hc]; exact h y hy
  | dismissOp tid =>
    intro r hr
    simp only [applyOp, dismiss, List.mem_map] at hr
    obtain ⟨y, hy, rfl⟩ := hr
    by_cases hc : y.id = tid ∧ y.status ≠ STATUS_DISMISSED
    · rw [if_pos hc]
      refine ⟨fun hp => ?_, fun hp => ?_⟩ <;>
        simp [STATUS_COMPLETED_def, STATUS_PENDING_def, STATUS_DUE_def,
          STATUS_DISMISSED_def] at hp
    · rw [if_neg hc]; exact h y hy
  | evaluateOp now =>
    intro r hr
    rw [applyOp, evaluate_state] at hr
    simp only [List.mem_map] at hr
    obtain ⟨y, hy, rfl⟩ := hr
    unfold updDue
    by_cases hc : y.due_time ≤ now ∧ y.status = STATUS_PENDING
    · rw [if_pos hc]
      refine ⟨fun hp => ?_, fun _ => ?_⟩
      · simp [STATUS_COMPLETED_def, STATUS_DUE_def] at hp
      · exact (h y hy).2 (Or.inl hc.2)
    · rw [if_neg hc]; exact h y hy

/-- C3 counterexample: dismissing a Completed reminder does not clear
completed_at. The dismiss button handler for the completed list only writes
status; on this concrete collection the reminder ends with status Dismissed
while completed_at is still some 20, so completed_at present does not imply
status Completed, refuting the claimed iff invariant and the claimed
clearing on dismissal. -/
theorem C3_counterexample :
    dismiss "a" [{ id := "a", task := "t", due_time := 10, created_at := 0,
                   status := STATUS_COMPLETED, completed_at := some 20 }] =
      [{ id := "a", task := "t", due_time := 10, created_at := 0,
         status := STATUS_DISMISSED, completed_at := some 20 }] := by decide

/-- C3 amended: after every sequence of operations, a reminder with status
Completed has completed_at present and a reminder with status Pending or
Due has completed_at absent (status and completed_at are updated together
by complete and uncomplete); dismissing a Completed reminder keeps its
completed_at, leaving a Dismissed reminder that may carry a completion
time. -/
theorem C3_completed_at_invariant (ops : List Op) (rs : List Reminder)
    (h : ∀ r ∈ rs, completedAtConsistent r) :
    ∀ r ∈ run ops rs, completedAtConsistent r := by
  induction ops generalizing rs with
  | nil => exact h
  | cons op ops ih =>
    rw [run_cons]
    exact ih _ (completedAtConsistent_applyOp op rs h)

/-- C3 witness: the amended invariant applied to a concrete run that
completes and then dismisses a pending reminder. -/
theorem C3_completed_at_invariant_witness :
    completedAtConsistent { id := "a", task := "t", due_time := 3, created_at := 0,
                            status := STATUS_DISMISSED, completed_at := some 5 } :=
  C3_completed_at_invariant [Op.completeOp 5 "a", Op.dismissOp "a"]
    [{ id := "a", task := "t", due_time := 3, created_at := 0,
       status := STATUS_PENDING, completed_at := none }]
    (by decide)
    { id := "a", task := "t", due_time := 3, created_at := 0,
      status := STATUS_DISMISSED, completed_at := some 5 }
    (by decide)

/-! Positional frame lemmas: every operation preserves the identity,
text and both timestamps of each pre-existing reminder, and never moves a
reminder out of the dismissed status. -/

theorem length_applyOp (op : Op) (rs : List Reminder) :
    rs.length ≤ (applyOp op rs).length := by
  cases op <;>
    simp [applyOp, add, complete, uncomplete, dismiss, evaluate_state]

theorem applyOp_getElem_frame (op : Op) (rs : List Reminder) (i : Nat)
    (hi : i < rs.length) (hj : i < (applyOp op rs).length) :
    ((applyOp op rs).get ⟨i, hj⟩).id = (rs.get ⟨i, hi⟩).id ∧
    ((applyOp op rs).get ⟨i, hj⟩).task = (rs.get ⟨i, hi⟩).task ∧
    ((applyOp op rs).get ⟨i, hj⟩).due_time = (rs.get ⟨i, hi⟩).due_time ∧
    ((applyOp op rs).get ⟨i, hj⟩).created_at = (rs.get ⟨i, hi⟩).created_at ∧
    ((rs.get ⟨i, hi⟩).status = STATUS_DISMISSED →
      ((applyOp op rs).get ⟨i, hj⟩).status = STATUS_DISMISSED) := by
  simp only [List.get_eq_getElem]
  cases op with
  | addOp now rid task value unit =>
    simp only [applyOp, add]
    rw [List.getElem_append_left hi]
    exact ⟨rfl, rfl, rfl, rfl, fun h => h⟩
  | completeOp now tid =>
    simp only [applyOp, complete, List.getElem_map]
    split
    · rename_i hcond
      rcases hcond.2 with hp | hp <;>
        simp_all [STATUS_PENDING_def, STATUS_DUE_def, STATUS_DISMISSED_def,
          STATUS_COMPLETED_def]
    · exact ⟨rfl, rfl, rfl, rfl, fun h => h⟩
  | uncompleteOp tid =>
    simp only [applyOp, uncomplete, List.getElem_map]
    split <;>
      simp_all [STATUS_PENDING_def, STATUS_DISMISSED_def, STATUS_COMPLETED_def]
  | dismissOp tid =>
    simp only [applyOp, dismiss, List.getElem_map]
    split <;> simp_all
  | evaluateOp now =>
    simp only [applyOp, evaluate_state, List.getElem_map]
    unfold updDue
    split <;>
      simp_all [STATUS_PENDING_def, STATUS_DUE_def, STATUS_DISMISSED_def]

theorem length_run (ops : List Op) (rs : List Reminder) :
    rs.length ≤ (run ops rs).length := by
  induction ops generalizing rs with
  | nil => exact Nat.le_refl _
  | cons op ops ih =>
    rw [run_cons]
    exact Nat.le_trans (length_applyOp op rs) (ih (applyOp op rs))

theorem run_getElem_frame (ops : List Op) (rs : List Reminder) (i : Nat)
    (hi : i < rs.length) (hj : i < (run ops rs).length) :
    ((run ops rs).get ⟨i, hj⟩).id = (rs.get ⟨i, hi⟩).id ∧
    ((run ops rs).get ⟨i, hj⟩).task = (rs.get ⟨i, hi⟩).task ∧
    ((run ops rs).get ⟨i, hj⟩).due_time = (rs.get ⟨i, hi⟩).due_time ∧
    ((run ops rs).get ⟨i, hj⟩).created_at = (rs.get ⟨i, hi⟩).created_at ∧
    ((rs.get ⟨i, hi⟩).status = STATUS_DISMISSED →
      ((run ops rs).get ⟨i, hj⟩).status = STATUS_DISMISSED) := by
  induction ops generalizing rs with
  | nil => exact ⟨rfl, rfl, rfl, rfl, fun h => h⟩
  | cons op ops ih =>
    have hmid : i < (applyOp op rs).length := Nat.lt_of_lt_of_le hi (length_applyOp op rs)
    have hj2 : i < (run ops (applyOp op rs)).length := hj
    obtain ⟨h1, h2, h3, h4, h5⟩ := applyOp_getElem_frame op rs i hi hmid
    obtain ⟨g1, g2, g3, g4, g5⟩ := ih (applyOp op rs) hmid hj2
    exact ⟨g1.trans h1, g2.trans h2, g3.trans h3, g4.trans h4, fun hd => g5 (h5 hd)⟩

/-! Claim C9. -/

/-- C9: a dismissed reminder stays dismissed under every sequence of
operations; no add, complete, uncomplete, dismiss or evaluate command ever
changes its status again. -/
theorem C9_dismissed_terminal (ops : List Op) (rs : List Reminder) (i : Nat)
    (hi : i < rs.length)
    (hdis : (rs.get ⟨i, hi⟩).status = STATUS_DISMISSED)
    (hj : i < (run ops rs).length) :
    ((run ops rs).get ⟨i, hj⟩).status = STATUS_DISMISSED :=
  (run_getElem_frame ops rs i hi hj).2.2.2.2 hdis

/-- C9 witness: the terminality theorem applied to a concrete dismissed
reminder driven through one command of every kind. -/
theorem C9_dismissed_terminal_witness :
    ((run [Op.evaluateOp 50, Op.completeOp 60 "a", Op.uncompleteOp "a",
           Op.dismissOp "a", Op.addOp 70 "b" "t2" 5 "minutes"]
        [{ id := "a", task := "t", due_time := 10, created_at := 0,
           status := STATUS_DISMISSED, completed_at := none }]).get
      ⟨0, by decide⟩).status = STATUS_DISMISSED :=
  C9_dismissed_terminal
    [Op.evaluateOp 50, Op.completeOp 60 "a", Op.uncompleteOp "a",
     Op.dismissOp "a", Op.addOp 70 "b" "t2" 5 "minutes"]
    [{ id := "a", task := "t", due_time := 10, created_at := 0,
       status := STATUS_DISMISSED, completed_at := none }]
    0 (by decide) (by decide) (by decide)

/-! Claim C8. -/

/-- C8: a reminder created by add with a positive offset and a recognized
unit has created_at equal to the creation instant and due_time equal to
calculate_due_time of that instant, hence due_time at or after created_at;
both fields are preserved unchanged by every later sequence of
operations. -/
theorem C8_due_after_creation (now : Nat) (rid task : String) (value : Nat)
    (unit : String) (rs : List Reminder) (ops : List Op)
    (_hval : 0 < value)
    (hunit : unit = "seconds" ∨ unit = "minutes" ∨ unit = "hours" ∨ unit = "days")
    (hj : rs.length < (run ops (add now rid task value unit rs)).length) :
    ((run ops (add now rid task value unit rs)).get ⟨rs.length, hj⟩).created_at = now ∧
    ((run ops (add now rid task value unit rs)).get ⟨rs.length, hj⟩).due_time =
      calculate_due_time now value unit ∧
    ((run ops (add now rid task value unit rs)).get ⟨rs.length, hj⟩).created_at ≤
      ((run ops (add now rid task value unit rs)).get ⟨rs.length, hj⟩).due_time := by
  have hi : rs.length < (add now rid task value unit rs).length := by simp [add]
  obtain ⟨-, -, h3, h4, -⟩ :=
    run_getElem_frame ops (add now rid task value unit rs) rs.length hi hj
  have hbase : (add now rid task value unit rs).get ⟨rs.length, hi⟩ =
      { id := rid, task := task, due_time := calculate_due_time now value unit,
        created_at := now, status := STATUS_PENDING, completed_at := none } := by
    simp only [add, List.get_eq_getElem]
    exact List.getElem_concat_length rs _ rs.length rfl _
  rw [hbase] at h3 h4
  have hle : now ≤ calculate_due_time now value unit := by
    rcases hunit with h | h | h | h <;> subst h <;> simp [calculate_due_time]
  exact ⟨h4, h3, by rw [h3, h4]; exact hle⟩

/-- C8 witness: the theorem applied to a concrete add of a ten-minute
reminder followed by an evaluate pass that flips it to due. -/
theorem C8_due_after_creation_witness :
    ((run [Op.evaluateOp 700] (add 0 "w8" "t8" 10 "minutes" [])).get
        ⟨0, by decide⟩).created_at = 0 ∧
    ((run [Op.evaluateOp 700] (add 0 "w8" "t8" 10 "minutes" [])).get
        ⟨0, by decide⟩).due_time = calculate_due_time 0 10 "minutes" ∧
    ((run [Op.evaluateOp 700] (add 0 "w8" "t8" 10 "minutes" [])).get
        ⟨0, by decide⟩).created_at ≤
      ((run [Op.evaluateOp 700] (add 0 "w8" "t8" 10 "minutes" [])).get
        ⟨0, by decide⟩).due_time :=
  C8_due_after_creation 0 "w8" "t8" 10 "minutes" [] [Op.evaluateOp 700]
    (by decide) (by decide) (by decide)

/-! Claim C10. -/

/-- C10: dismiss changes at most the status field of the targeted reminder
and nothing else: the length of the collection, the id, task, due_time,
created_at and completed_at of every reminder are unchanged; a reminder
whose id is not the target is wholly unchanged; the targeted reminder, when
not already dismissed, ends with status Dismissed (its completed_at, in
particular a completion time it had as a Completed reminder, kept). -/
theorem C10_dismiss_only_status (tid : String) (rs : List Reminder) :
    (dismiss tid rs).length = rs.length ∧
    ∀ (i : Nat) (hi : i < rs.length) (hj : i < (dismiss tid rs).length),
      ((dismiss tid rs).get ⟨i, hj⟩).id = (rs.get ⟨i, hi⟩).id ∧
      ((dismiss tid rs).get ⟨i, hj⟩).task = (rs.get ⟨i, hi⟩).task ∧
      ((dismiss tid rs).get ⟨i, hj⟩).due_time = (rs.get ⟨i, hi⟩).due_time ∧
      ((dismiss tid rs).get ⟨i, hj⟩).created_at = (rs.get ⟨i, hi⟩).created_at ∧
      ((dismiss tid rs).get ⟨i, hj⟩).completed_at = (rs.get ⟨i, hi⟩).completed_at ∧
      ((rs.get ⟨i, hi⟩).id ≠ tid → (dismiss tid rs).get ⟨i, hj⟩ = rs.get ⟨i, hi⟩) ∧
      ((rs.get ⟨i, hi⟩).id = tid ∧ (rs.get ⟨i, hi⟩).status ≠ STATUS_DISMISSED →
        ((dismiss tid rs).get ⟨i, hj⟩).status = STATUS_DISMISSED) := by
  refine ⟨by simp [dismiss], ?_⟩
  intro i hi hj
  simp only [List.get_eq_getElem, dismiss, List.getElem_map]
  split
  · rename_i hcond
    exact ⟨rfl, rfl, rfl, rfl, rfl, fun hne => absurd hcond.1 hne, fun _ => rfl⟩
  · rename_i hcond
    exact ⟨rfl, rfl, rfl, rfl, rfl, fun _ => rfl, fun hc => absurd hc hcond⟩

/-- C10 witness: dismissing a completed reminder in a concrete two-element
collection keeps its completed_at, sets its status to Dismissed, and leaves
the other reminder untouched. -/
theorem C10_dismiss_only_status_witness :
    ((dismiss "a" [{ id := "a", task := "t", due_time := 10, created_at := 0,
                     status := STATUS_COMPLETED, completed_at := some 20 },
                   { id := "b", task := "u", due_time := 30, created_at := 1,
                     status := STATUS_PENDING, completed_at := none }]).get
        ⟨0, by decide⟩).completed_at = some 20 ∧
    ((dismiss "a" [{ id := "a", task := "t", due_time := 10, created_at := 0,
                     status := STATUS_COMPLETED, completed_at := some 20 },
                   { id := "b", task := "u", due_time := 30, created_at := 1,
                     status := STATUS_PENDING, completed_at := none }]).get
        ⟨0, by decide⟩).status = STATUS_DISMISSED ∧
    (dismiss "a" [{ id := "a", task := "t", due_time := 10, created_at := 0,
                    status := STATUS_COMPLETED, completed_at := some 20 },
                  { id := "b", task := "u", due_time := 30, created_at := 1,
                    status := STATUS_PENDING, completed_at := none }]).get
        ⟨1, by decide⟩ =
      { id := "b", task := "u", due_time := 30, created_at := 1,
        status := STATUS_PENDING, completed_at := none } := by
  obtain ⟨-, h⟩ := C10_dismiss_only_status "a"
    [{ id := "a", task := "t", due_time := 10, created_at := 0,
       status := STATUS_COMPLETED, completed_at := some 20 },
     { id := "b", task := "u", due_time := 30, created_at := 1,
       status := STATUS_PENDING, completed_at := none }]
  obtain ⟨-, -, -, -, hca, -, hst⟩ := h 0 (by decide) (by decide)
  obtain ⟨-, -, -, -, -, hfr, -⟩ := h 1 (by decide) (by decide)
  exact ⟨hca, hst ⟨rfl, by decide⟩, hfr (by decide)⟩

/-! Claim C7. -/

instance : IsTrans Reminder dueLE :=
  ⟨fun _ _ _ hab hbc => Nat.le_trans hab hbc⟩

instance : IsTotal Reminder dueLE :=
  ⟨fun a b => Nat.le_total a.due_time b.due_time⟩

instance : IsTrans Reminder completedGE :=
  ⟨fun _ _ _ hab hbc => Nat.le_trans hbc hab⟩

instance : IsTotal Reminder completedGE :=
  ⟨fun a b => Nat.le_total (completedKey b) (completedKey a)⟩

theorem evaluate_active (now : Nat) (rs : List Reminder) :
    (evaluate now rs).active =
      (List.insertionSort dueLE (rs.filter
        (fun r => r.status ≠ STATUS_DISMISSED ∧ r.status ≠ STATUS_COMPLETED))).map
        (updDue now) := rfl

theorem evaluate_completed (now : Nat) (rs : List Reminder) :
    (evaluate now rs).completed =
      List.insertionSort completedGE (rs.filter
        (fun r => r.status ≠ STATUS_DISMISSED ∧ r.status = STATUS_COMPLETED)) := rfl

theorem evaluate_became_due (now : Nat) (rs : List Reminder) :
    (evaluate now rs).became_due =
      ((List.insertionSort dueLE (rs.filter
        (fun r => r.status ≠ STATUS_DISMISSED ∧ r.status ≠ STATUS_COMPLETED))).filter
        (fun r => r.due_time ≤ now ∧ r.status = STATUS_PENDING)).map (updDue now) := rfl

theorem status_active_iff (s : Status) :
    (s ≠ STATUS_DISMISSED ∧ s ≠ STATUS_COMPLETED) ↔
      (s = STATUS_PENDING ∨ s = STATUS_DUE) := by
  cases s <;>
    simp [STATUS_PENDING_def, STATUS_DUE_def, STATUS_DISMISSED_def, STATUS_COMPLETED_def]

theorem status_completed_iff (s : Status) :
    (s ≠ STATUS_DISMISSED ∧ s = STATUS_COMPLETED) ↔ s = STATUS_COMPLETED := by
  cases s <;>
    simp [STATUS_DISMISSED_def, STATUS_COMPLETED_def]

theorem dueLE_updDue (now : Nat) {a b : Reminder} (h : dueLE a b) :
    dueLE (updDue now a) (updDue now b) := by
  unfold dueLE at h ⊢
  rw [updDue_due_time, updDue_due_time]
  exact h

/-- C7: after an evaluate pass, the displayed active list consists of
exactly the reminders whose status was pending or due (carried through the
pending-to-due flip of the pass), sorted ascending by due_time; the
displayed completed list consists of exactly the reminders with status
completed, sorted descending by completed_at with created_at as fallback
(the completedKey, total, hence no crash on an absent completed_at); and a
dismissed reminder appears in neither list. -/
theorem C7_classification (now : Nat) (rs : List Reminder) :
    ((evaluate now rs).active).Perm
      ((rs.filter (fun r => r.status = STATUS_PENDING ∨ r.status = STATUS_DUE)).map
        (updDue now)) ∧
    List.Sorted dueLE (evaluate now rs).active ∧
    (∀ r ∈ (evaluate now rs).active,
      r.status = STATUS_PENDING ∨ r.status = STATUS_DUE) ∧
    ((evaluate now rs).completed).Perm
      (rs.filter (fun r => r.status = STATUS_COMPLETED)) ∧
    List.Sorted completedGE (evaluate now rs).completed ∧
    (∀ r ∈ (evaluate now rs).completed, r.status = STATUS_COMPLETED) ∧
    (∀ r ∈ rs, r.status = STATUS_DISMISSED →
      r ∉ (evaluate now rs).active ∧ r ∉ (evaluate now rs).completed) := by
  have hfa : rs.filter (fun r => r.status ≠ STATUS_DISMISSED ∧ r.status ≠ STATUS_COMPLETED) =
      rs.filter (fun r => r.status = STATUS_PENDING ∨ r.status = STATUS_DUE) :=
    List.filter_congr (fun r _ => decide_eq_decide.mpr (status_active_iff r.status))
  have hfc : rs.filter (fun r => r.status ≠ STATUS_DISMISSED ∧ r.status = STATUS_COMPLETED) =
      rs.filter (fun r => r.status = STATUS_COMPLETED) :=
    List.filter_congr (fun r _ => decide_eq_decide.mpr (status_completed_iff r.status))
  have hactmem : ∀ r ∈ (evaluate now rs).active,
      r.status = STATUS_PENDING ∨ r.status = STATUS_DUE := by
    intro r hr
    rw [evaluate_active] at hr
    simp only [List.mem_map] at hr
    obtain ⟨y, hy, rfl⟩ := hr
    rw [List.mem_insertionSort] at hy
    have hp := List.of_mem_filter hy
    simp only [decide_eq_true_eq] at hp
    have hy2 := (status_active_iff y.status).mp hp
    unfold updDue
    split
    · exact Or.inr rfl
    · exact hy2
  have hcompmem : ∀ r ∈ (evaluate now rs).completed, r.status = STATUS_COMPLETED := by
    intro r hr
    rw [evaluate_completed] at hr
    rw [List.mem_insertionSort] at hr
    have hp := List.of_mem_filter hr
    simp only [decide_eq_true_eq] at hp
    exact hp.2
  refine ⟨?_, ?_, hactmem, ?_, ?_, hcompmem, ?_⟩
  · rw [evaluate_active, hfa]
    exact (List.perm_insertionSort dueLE _).map (updDue now)
  · rw [evaluate_active]
    exact List.Pairwise.map (updDue now) (fun a b => dueLE_updDue now)
      (List.sorted_insertionSort dueLE _)
  · rw [evaluate_completed, hfc]
    exact List.perm_insertionSort completedGE _
  · rw [evaluate_completed]
    exact List.sorted_insertionSort completedGE _
  · intro r _ hdis
    constructor
    · intro hmem
      rcases hactmem r hmem with h | h <;> rw [hdis] at h <;>
        simp [STATUS_PENDING_def, STATUS_DUE_def, STATUS_DISMISSED_def] at h
    · intro hmem
      have h := hcompmem r hmem
      rw [hdis] at h
      simp [STATUS_COMPLETED_def, STATUS_DISMISSED_def] at h

/-- C7 witness: the classification theorem applied to a concrete collection
with one reminder of each status (the completed one lacking completed_at,
exercising the created_at fallback without a crash), its membership
hypotheses discharged at a concrete member of each displayed list. -/
theorem C7_classification_witness :
    (({ id := "b", task := "u", due_time := 30, created_at := 1,
        status := STATUS_DUE, completed_at := none } : Reminder).status = STATUS_PENDING ∨
     ({ id := "b", task := "u", due_time := 30, created_at := 1,
        status := STATUS_DUE, completed_at := none } : Reminder).status = STATUS_DUE) ∧
    ({ id := "c", task := "v", due_time := 20, created_at := 2,
       status := STATUS_COMPLETED, completed_at := none } : Reminder).status =
      STATUS_COMPLETED :=
  ⟨(C7_classification 50 [{ id := "a", task := "t", due_time := 60, created_at := 0,
                            status := STATUS_PENDING, completed_at := none },
                          { id := "b", task := "u", due_time := 30, created_at := 1,
                            status := STATUS_DUE, completed_at := none },
                          { id := "c", task := "v", due_time := 20, created_at := 2,
                            status := STATUS_COMPLETED, completed_at := none },
                          { id := "d", task := "w", due_time := 10, created_at := 3,
                            status := STATUS_DISMISSED, completed_at := none }]).2.2.1
      { id := "b", task := "u", due_time := 30, created_at := 1,
        status := STATUS_DUE, completed_at := none } (by decide),
   (C7_classification 50 [{ id := "a", task := "t", due_time := 60, created_at := 0,
                            status := STATUS_PENDING, completed_at := none },
                          { id := "b", task := "u", due_time := 30, created_at := 1,
                            status := STATUS_DUE, completed_at := none },
                          { id := "c", task := "v", due_time := 20, created_at := 2,
                            status := STATUS_COMPLETED, completed_at := none },
                          { id := "d", task := "w", due_time := 10, created_at := 3,
                            status := STATUS_DISMISSED, completed_at := none }]).2.2.2.2.2.1
      { id := "c", task := "v", due_time := 20, created_at := 2,
        status := STATUS_COMPLETED, completed_at := none } (by decide)⟩

/-! Claim C4. -/

theorem updDue_eq_self_of_not_pending (now : Nat) {r : Reminder}
    (h : r.status ≠ STATUS_PENDING) : updDue now r = r := by
  unfold updDue
  exact if_neg (fun hc => h hc.2)

theorem act_iff_updDue (now : Nat) (y : Reminder) :
    ((updDue now y).status ≠ STATUS_DISMISSED ∧ (updDue now y).status ≠ STATUS_COMPLETED) ↔
      (y.status ≠ STATUS_DISMISSED ∧ y.status ≠ STATUS_COMPLETED) := by
  unfold updDue
  split
  · rename_i hc
    rw [hc.2]
    simp [STATUS_PENDING_def, STATUS_DUE_def, STATUS_DISMISSED_def, STATUS_COMPLETED_def]
  · exact Iff.rfl

theorem comp_iff_updDue (now : Nat) (y : Reminder) :
    ((updDue now y).status ≠ STATUS_DISMISSED ∧ (updDue now y).status = STATUS_COMPLETED) ↔
      (y.status ≠ STATUS_DISMISSED ∧ y.status = STATUS_COMPLETED) := by
  unfold updDue
  split
  · rename_i hc
    rw [hc.2]
    simp [STATUS_PENDING_def, STATUS_DUE_def, STATUS_DISMISSED_def, STATUS_COMPLETED_def]
  · exact Iff.rfl

theorem not_crossed_updDue (now : Nat) (y : Reminder) :
    ¬((updDue now y).due_time ≤ now ∧ (updDue now y).status = STATUS_PENDING) := by
  unfold updDue
  split
  · rename_i hc
    intro h
    have := h.2
    simp [STATUS_DUE_def, STATUS_PENDING_def] at this
  · rename_i hc
    exact hc

theorem filter_act_updDue (now : Nat) (rs : List Reminder) :
    (rs.map (updDue now)).filter
        (fun r => r.status ≠ STATUS_DISMISSED ∧ r.status ≠ STATUS_COMPLETED) =
      (rs.filter
        (fun r => r.status ≠ STATUS_DISMISSED ∧ r.status ≠ STATUS_COMPLETED)).map
        (updDue now) := by
  rw [List.filter_map]
  congr 1
  exact List.filter_congr (fun y _ => by
    simp only [Function.comp_apply]
    exact decide_eq_decide.mpr (act_iff_updDue now y))

theorem filter_comp_updDue (now : Nat) (rs : List Reminder) :
    (rs.map (updDue now)).filter
        (fun r => r.status ≠ STATUS_DISMISSED ∧ r.status = STATUS_COMPLETED) =
      rs.filter (fun r => r.status ≠ STATUS_DISMISSED ∧ r.status = STATUS_COMPLETED) := by
  rw [List.filter_map]
  have h1 : rs.filter ((fun r : Reminder =>
      decide (r.status ≠ STATUS_DISMISSED ∧ r.status = STATUS_COMPLETED)) ∘ updDue now) =
      rs.filter (fun r => r.status ≠ STATUS_DISMISSED ∧ r.status = STATUS_COMPLETED) :=
    List.filter_congr (fun y _ => by
      simp only [Function.comp_apply]
      exact decide_eq_decide.mpr (comp_iff_updDue now y))
  rw [h1]
  have h2 : ∀ y ∈ rs.filter
      (fun r => r.status ≠ STATUS_DISMISSED ∧ r.status = STATUS_COMPLETED),
      updDue now y = y := by
    intro y hy
    have hp := List.of_mem_filter hy
    simp only [decide_eq_true_eq] at hp
    exact updDue_eq_self_of_not_pending now (fun hpend => by
      rw [hpend] at hp
      simp [STATUS_PENDING_def, STATUS_COMPLETED_def] at hp)
  exact (List.map_congr_left h2).trans (List.map_id' _)

theorem map_updDue_idem (now : Nat) (rs : List Reminder) :
    ((rs.map (updDue now)).map (updDue now)) = rs.map (updDue now) := by
  rw [List.map_map]
  exact List.map_congr_left (fun r _ => updDue_idem now r)

theorem sort_map_updDue (now : Nat) (l : List Reminder) :
    List.insertionSort dueLE (l.map (updDue now)) =
      (List.insertionSort dueLE l).map (updDue now) :=
  (List.map_insertionSort dueLE dueLE (updDue now) l (fun a _ b _ =>
    ⟨fun h => dueLE_updDue now h, fun h => by
      unfold dueLE at h ⊢
      rwa [updDue_due_time, updDue_due_time] at h⟩)).symm

/-- C4: a second evaluate pass at the identical instant returns the same
active and completed lists, flips nothing further (the state is unchanged),
and reports no reminder as newly due and no notification, so repeating the
render loop at the same now is idempotent. -/
theorem C4_evaluate_idempotent (now : Nat) (rs : List Reminder) :
    (evaluate now (evaluate now rs).state).active = (evaluate now rs).active ∧
    (evaluate now (evaluate now rs).state).completed = (evaluate now rs).completed ∧
    (evaluate now (evaluate now rs).state).became_due = [] ∧
    (evaluate now (evaluate now rs).state).due_notifications = [] ∧
    (evaluate now (evaluate now rs).state).state = (evaluate now rs).state := by
  have hstate : (evaluate now rs).state = rs.map (updDue now) := evaluate_state now rs
  have hnil : (List.insertionSort dueLE ((rs.map (updDue now)).filter
      (fun r => r.status ≠ STATUS_DISMISSED ∧ r.status ≠ STATUS_COMPLETED))).filter
      (fun r => r.due_time ≤ now ∧ r.status = STATUS_PENDING) = [] := by
    rw [List.filter_eq_nil_iff]
    intro x hx
    rw [List.mem_insertionSort, List.mem_filter] at hx
    obtain ⟨hx1, -⟩ := hx
    rw [List.mem_map] at hx1
    obtain ⟨y, -, rfl⟩ := hx1
    simp only [decide_eq_true_eq]
    exact not_crossed_updDue now y
  refine ⟨?_, ?_, ?_, ?_, ?_⟩
  · rw [evaluate_active, evaluate_active, hstate, filter_act_updDue, sort_map_updDue,
      List.map_map]
    exact List.map_congr_left (fun r _ => updDue_idem now r)
  · rw [evaluate_completed, evaluate_completed, hstate, filter_comp_updDue]
  · rw [evaluate_became_due, hstate, hnil]
    rfl
  · show ((List.insertionSort dueLE (((evaluate now rs).state).filter
      (fun r => r.status ≠ STATUS_DISMISSED ∧ r.status ≠ STATUS_COMPLETED))).filter
      (fun r => r.due_time ≤ now ∧ r.status = STATUS_PENDING)).map
        (fun r => r.task) = []
    rw [hstate, hnil]
    rfl
  · rw [evaluate_state, evaluate_state]
    exact map_updDue_idem now rs

/-! Claim C5. -/

theorem countP_id_eq_one {rid : String} {p : Reminder → Bool}
    (hp : ∀ x, p x = true → x.id = rid) :
    ∀ {rs : List Reminder}, (rs.map Reminder.id).Nodup →
      ∀ {r : Reminder}, r ∈ rs → r.id = rid → p r = true → rs.countP p = 1 := by
  intro rs
  induction rs with
  | nil => intro _ r hr; cases hr
  | cons a l ih =>
    intro hnd r hr hrid hpr
    rw [List.map_cons, List.nodup_cons] at hnd
    by_cases hpa : p a = true
    · rw [List.countP_cons_of_pos p l hpa]
      have hzero : l.countP p = 0 := by
        rw [List.countP_eq_zero]
        intro x hx hpx
        apply hnd.1
        rw [show a.id = x.id from (hp a hpa).trans (hp x hpx).symm]
        exact List.mem_map_of_mem Reminder.id hx
      rw [hzero]
    · rw [List.countP_cons_of_neg p l hpa]
      rcases List.mem_cons.mp hr with rfl | hrl
      · exact absurd hpr hpa
      · exact ih hnd.2 hrl hrid hpr

/-- Membership in the list of reminders that crossed to due during an
evaluate pass, traced back to the original collection. -/
theorem mem_became_due_src {now : Nat} {rs : List Reminder} {z : Reminder}
    (hz : z ∈ (evaluate now rs).became_due) :
    ∃ y ∈ rs, y.due_time ≤ now ∧ y.status = STATUS_PENDING ∧ z = updDue now y := by
  rw [evaluate_became_due] at hz
  rw [List.mem_map] at hz
  obtain ⟨y, hy, rfl⟩ := hz
  rw [List.mem_filter] at hy
  obtain ⟨hy1, hy2⟩ := hy
  rw [List.mem_insertionSort, List.mem_filter] at hy1
  simp only [decide_eq_true_eq] at hy2
  exact ⟨y, hy1.1, hy2.1, hy2.2, rfl⟩

/-- Once every reminder carrying a given id is due, an evaluate pass keeps
it due and reports no crossing for that id. -/
theorem due_stays_due {rid : String} {s : List Reminder} (t : Nat)
    (hQ : ∀ x ∈ s, x.id = rid → x.status = STATUS_DUE) :
    (∀ x ∈ (evaluate t s).state, x.id = rid → x.status = STATUS_DUE) ∧
    List.countP (fun x => x.id == rid) (evaluate t s).became_due = 0 := by
  constructor
  · intro x hx hxid
    rw [evaluate_state, List.mem_map] at hx
    obtain ⟨y, hy, rfl⟩ := hx
    rw [updDue_id] at hxid
    have hdue := hQ y hy hxid
    rw [updDue_eq_self_of_not_pending t (by
      rw [hdue]
      simp [STATUS_DUE_def, STATUS_PENDING_def])]
    exact hdue
  · rw [List.countP_eq_zero]
    intro z hz hbeq
    obtain ⟨y, hys, -, hypend, rfl⟩ := mem_became_due_src hz
    rw [updDue_id] at hbeq
    have hyid := beq_iff_eq.mp hbeq
    have := hQ y hys hyid
    rw [hypend] at this
    simp [STATUS_DUE_def, STATUS_PENDING_def] at this

theorem count_zero_evalChain {rid : String} :
    ∀ (ts : List Nat) (s : List Reminder),
      (∀ x ∈ s, x.id = rid → x.status = STATUS_DUE) →
      ∀ l ∈ evalChain ts s, List.countP (fun x => x.id == rid) l = 0 := by
  intro ts
  induction ts with
  | nil => intro s _ l hl; cases hl
  | cons t ts ih =>
    intro s hQ l hl
    rw [evalChain] at hl
    rcases List.mem_cons.mp hl with rfl | hl
    · exact (due_stays_due t hQ).2
    · exact ih (evaluate t s).state (due_stays_due t hQ).1 l hl

/-- C5: a pending reminder whose due_time has been reached transitions to
Due on the next evaluate pass (every reminder carrying its id is due in the
resulting state), it is counted exactly once in became_due of that pass,
and across every later chain of evaluate passes at the same or later
instants it is never counted in became_due again. -/
theorem C5_pending_to_due_once (now : Nat) (rs : List Reminder) (r : Reminder)
    (hnodup : (rs.map Reminder.id).Nodup)
    (hmem : r ∈ rs) (hpend : r.status = STATUS_PENDING) (hdue : r.due_time ≤ now) :
    (∀ x ∈ (evaluate now rs).state, x.id = r.id → x.status = STATUS_DUE) ∧
    List.countP (fun x => x.id == r.id) (evaluate now rs).became_due = 1 ∧
    (∀ (ts : List Nat), (∀ t ∈ ts, now ≤ t) →
      ∀ l ∈ evalChain ts (evaluate now rs).state,
        List.countP (fun x => x.id == r.id) l = 0) := by
  have hQ : ∀ x ∈ (evaluate now rs).state, x.id = r.id → x.status = STATUS_DUE := by
    intro x hx hxid
    rw [evaluate_state, List.mem_map] at hx
    obtain ⟨y, hy, rfl⟩ := hx
    rw [updDue_id] at hxid
    have hyr : y = r := List.inj_on_of_nodup_map hnodup hy hmem hxid
    subst hyr
    unfold updDue
    rw [if_pos ⟨hdue, hpend⟩]
  refine ⟨hQ, ?_, ?_⟩
  · rw [evaluate_became_due, List.countP_map]
    have hcongr : List.countP
        ((fun x => x.id == r.id) ∘ updDue now)
        ((List.insertionSort dueLE (rs.filter
          (fun x => x.status ≠ STATUS_DISMISSED ∧ x.status ≠ STATUS_COMPLETED))).filter
          (fun x => x.due_time ≤ now ∧ x.status = STATUS_PENDING)) =
        List.countP (fun x => x.id == r.id)
        ((List.insertionSort dueLE (rs.filter
          (fun x => x.status ≠ STATUS_DISMISSED ∧ x.status ≠ STATUS_COMPLETED))).filter
          (fun x => x.due_time ≤ now ∧ x.status = STATUS_PENDING)) :=
      List.countP_congr (fun x _ => by
        simp only [Function.comp_apply, updDue_id])
    rw [hcongr]
    have hsubnd : (((List.insertionSort dueLE (rs.filter
        (fun x => x.status ≠ STATUS_DISMISSED ∧ x.status ≠ STATUS_COMPLETED))).filter
        (fun x => x.due_time ≤ now ∧ x.status = STATUS_PENDING)).map Reminder.id).Nodup := by
      have h1 : ((rs.filter (fun x => x.status ≠ STATUS_DISMISSED ∧
          x.status ≠ STATUS_COMPLETED)).map Reminder.id).Nodup :=
        ((List.filter_sublist rs).map Reminder.id).nodup hnodup
      have h2 : ((List.insertionSort dueLE (rs.filter
          (fun x => x.status ≠ STATUS_DISMISSED ∧
            x.status ≠ STATUS_COMPLETED))).map Reminder.id).Nodup :=
        (((List.perm_insertionSort dueLE _).map Reminder.id).nodup_iff).mpr h1
      exact ((List.filter_sublist _).map Reminder.id).nodup h2
    have hrmem : r ∈ (List.insertionSort dueLE (rs.filter
        (fun x => x.status ≠ STATUS_DISMISSED ∧ x.status ≠ STATUS_COMPLETED))).filter
        (fun x => x.due_time ≤ now ∧ x.status = STATUS_PENDING) := by
      rw [List.mem_filter, List.mem_insertionSort, List.mem_filter]
      refine ⟨⟨hmem, ?_⟩, ?_⟩
      · simp only [decide_eq_true_eq]
        rw [hpend]
        simp [STATUS_PENDING_def, STATUS_DISMISSED_def, STATUS_COMPLETED_def]
      · simp only [decide_eq_true_eq]
        exact ⟨hdue, hpend⟩
    exact countP_id_eq_one (fun x hx => beq_iff_eq.mp hx) hsubnd hrmem rfl
      (beq_self_eq_true r.id)
  · intro ts _ l hl
    exact count_zero_evalChain ts (evaluate now rs).state hQ l hl

/-- C5 witness: the theorem applied to a concrete overdue pending reminder,
extracting the exactly-once count in became_due of the first pass. -/
theorem C5_pending_to_due_once_witness :
    List.countP (fun x => x.id == "a")
      (evaluate 10 [{ id := "a", task := "t", due_time := 5, created_at := 0,
                      status := STATUS_PENDING, completed_at := none }]).became_due = 1 :=
  (C5_pending_to_due_once 10
    [{ id := "a", task := "t", due_time := 5, created_at := 0,
       status := STATUS_PENDING, completed_at := none }]
    { id := "a", task := "t", due_time := 5, created_at := 0,
      status := STATUS_PENDING, completed_at := none }
    (by decide) (by decide) (by decide) (by decide)).2.1

end ReminderApp
